import Mathlib

/-!
# can-talon-srx-ros: the PCAN back end (`src/canpeak_impl.cpp`)

A shallow embedding of `CanPeakInterface`: the reader lambda of the
constructor, `sendMessage`, `receiveMessage` and the four stream / status
stubs, followed by theorems about them.

Conventions of the embedding.

* Machine integers are natural numbers or integers; no arithmetic is done on
  them by the code, so no wrap-around is involved.
* A fixed C array `T x[8]` is a function `Fin 8 → Nat`.  Memory that the code
  only reaches through a raw pointer handed in by the caller (`data`) is an
  offset-indexed function `Nat → Nat`: how much the caller allocated is not
  visible to the callee.
* `memcpy` touching more than the 8 bytes of a fixed array is undefined
  behaviour in C; the embedding reports it as `Outcome.undefinedBehaviour`.
* Every operation on the message box runs under `std::lock_guard`, so each is
  one atomic step on the map; the embedding is the sequential semantics.
-/

namespace CanTalonSrx

/-- Result codes and message types of the vendor header `PCAN/PCANBasic.h`.
The source names them without defining them, so they are parameters. -/
structure PcanConsts where
  PCAN_ERROR_OK : Nat
  PCAN_ERROR_QRCVEMPTY : Nat
  PCAN_MESSAGE_STANDARD : Nat
  PCAN_MESSAGE_STATUS : Nat
  PCAN_MESSAGE_ERRFRAME : Nat

/-- The values the vendor header gives to the constants. -/
def pcanBasic : PcanConsts :=
  { PCAN_ERROR_OK := 0
    PCAN_ERROR_QRCVEMPTY := 32
    PCAN_MESSAGE_STANDARD := 0
    PCAN_MESSAGE_STATUS := 128
    PCAN_MESSAGE_ERRFRAME := 64 }

/-- A C array of eight bytes. -/
abbrev Bytes8 := Fin 8 → Nat

/-- Caller memory behind a raw byte pointer, indexed by offset. -/
abbrev Buffer := Nat → Nat

/-- The all-zero array produced by `= {0}`. -/
def zeroBytes : Bytes8 := fun _ => 0

/-- The vendor frame `TPCANMsg`: `DWORD ID; BYTE MSGTYPE; BYTE LEN; BYTE DATA[8]`. -/
structure TPCANMsg where
  ID : Nat
  MSGTYPE : Nat
  LEN : Nat
  DATA : Bytes8

/-- Modelled from the spec: the `Message` struct of `can_talon_srx/canpeak.h`
(not among the sources).  The spec's Frame has an arbitration id, a length and
a fixed 8-byte data buffer; the source uses exactly the members `arbID`, `len`
and `data`. -/
structure Message where
  arbID : Nat
  len : Nat
  data : Bytes8

/-- The map `MessageBox::messages` from arbitration id to
`std::shared_ptr<Message>`.  `none` is a key that is not in the map,
`some none` a key whose pointer is null, `some (some f)` a pending frame. -/
abbrev MessageMap := Nat → Option (Option Message)

/-- The map of a freshly made `MessageBox`: no keys. -/
def emptyMessages : MessageMap := fun _ => none

/-- The state the member functions act on: the shared message box and, to
observe `CAN_Write`, the frames handed to the adapter so far (oldest first). -/
structure CanPeakInterface where
  receivedMessages_ : MessageMap
  written : List TPCANMsg

/-- How a member function ends: it returns, it throws `std::runtime_error`
(the state and out-parameters being as they were at the throw), or it runs
into undefined behaviour. -/
inductive Outcome (α : Type) where
  | returned (a : α)
  | thrown (what : String) (a : α)
  | undefinedBehaviour

/-- The value a call leaves behind, when it has a defined end. -/
def Outcome.value? {α : Type} : Outcome α → Option α
  | Outcome.returned a => some a
  | Outcome.thrown _ a => some a
  | Outcome.undefinedBehaviour => none

/-- Whether the call ended by throwing. -/
def Outcome.throws {α : Type} : Outcome α → Bool
  | Outcome.thrown _ _ => true
  | _ => false

/-- Call `std::map::operator[]`: the mapped pointer, and the map, which gains a
null entry when the key was missing. -/
def index (m : MessageMap) (key : Nat) : MessageMap × Option Message :=
  match m key with
  | some entry => (m, entry)
  | none => (Function.update m key (some none), none)

/-- Assignment through the reference `operator[]` returned. -/
def assign (m : MessageMap) (key : Nat) (p : Option Message) : MessageMap :=
  Function.update m key (some p)

/-- Run `memcpy(dst, src, n)` into a fixed 8-byte array from caller memory:
defined only when the `n` bytes fit. -/
def memcpyIn (dst : Bytes8) (src : Buffer) (n : Nat) : Option Bytes8 :=
  if n ≤ 8 then some (fun i => if i.val < n then src i.val else dst i) else none

/-- Run `memcpy(dst, src, n)` from a fixed 8-byte array into caller memory:
defined only when the `n` bytes lie inside the array. -/
def memcpyOut (dst : Buffer) (src : Bytes8) (n : Nat) : Option Buffer :=
  if h8 : n ≤ 8 then
    some (fun i => if h : i < n then src ⟨i, Nat.lt_of_lt_of_le h h8⟩ else dst i)
  else none

/-- Run `memcpy(&dst, src, 8)` between two 8-byte arrays: all eight bytes. -/
def memcpy8 (_dst src : Bytes8) : Bytes8 := fun i => src i

/-- The `case PCAN_MESSAGE_STANDARD` block of the reader (lines 57-66): build
a `Message` from the frame read and store a fresh pointer to it under its id. -/
def deposit (messages : MessageMap) (msgReceived : TPCANMsg) : MessageMap :=
  let (messages, _ptr) := index messages msgReceived.ID
  let new_frame : Message := { arbID := 0, len := 0, data := zeroBytes }
  let new_frame := { new_frame with arbID := msgReceived.ID }
  let new_frame := { new_frame with len := msgReceived.LEN }
  let new_frame := { new_frame with data := memcpy8 new_frame.data msgReceived.DATA }
  assign messages msgReceived.ID (some new_frame)

/-- The body of the reader's `while` loop after `CAN_Read` has returned
`result` and filled `msgReceived` (lines 48-83); logging is not modelled. -/
def readerBody (k : PcanConsts) (messages : MessageMap) (result : Nat)
    (msgReceived : TPCANMsg) : MessageMap :=
  if result = k.PCAN_ERROR_QRCVEMPTY then messages
  else if result = k.PCAN_ERROR_OK then
    if msgReceived.MSGTYPE = k.PCAN_MESSAGE_STANDARD then deposit messages msgReceived
    else if msgReceived.MSGTYPE = k.PCAN_MESSAGE_STATUS then messages
    else if msgReceived.MSGTYPE = k.PCAN_MESSAGE_ERRFRAME then messages
    else messages
  else messages

/-- The states of the reader thread. -/
inductive ReaderState where
  | Running
  | Stopped
  deriving DecidableEq, Repr

/-- One scheduled turn of the reader: the value of `*running` seen by the
`while` test, and what `CAN_Read` would return if called. -/
structure Turn where
  running : Bool
  result : Nat
  msgReceived : TPCANMsg

/-- The reader lambda `while (*running) { ... }` run over a script of turns.
It yields the thread state, the message map and the number of `CAN_Read`
calls made; when the script is used up the thread is still running. -/
def readerLoop (k : PcanConsts) : List Turn → MessageMap → Nat →
    ReaderState × MessageMap × Nat
  | [], messages, reads => (ReaderState.Running, messages, reads)
  | t :: rest, messages, reads =>
    if t.running then
      readerLoop k rest (readerBody k messages t.result t.msgReceived) (reads + 1)
    else (ReaderState.Stopped, messages, reads)

/-- What `sendMessage` leaves behind: the interface and `*status`. -/
structure SendResult where
  self : CanPeakInterface
  status : Int

/-- Model of `CanPeakInterface::sendMessage` (lines 104-126).  `status` is
`*status` on entry and `writeResult` what `CAN_Write` returns if called. -/
def sendMessage (k : PcanConsts) (self : CanPeakInterface) (arbID : Nat)
    (data : Buffer) (dataSize : Nat) (periodMs : Int) (status : Int)
    (writeResult : Nat) : Outcome SendResult :=
  if periodMs = 0 then
    Outcome.returned { self := self, status := status }
  else
    let funcRequest : TPCANMsg := { ID := 0, MSGTYPE := 0, LEN := 0, DATA := zeroBytes }
    let funcRequest := { funcRequest with ID := arbID }
    let funcRequest := { funcRequest with MSGTYPE := k.PCAN_MESSAGE_STANDARD }
    let funcRequest := { funcRequest with LEN := 8 }
    match memcpyIn funcRequest.DATA data dataSize with
    | none => Outcome.undefinedBehaviour
    | some bytes =>
      let funcRequest := { funcRequest with DATA := bytes }
      let self := { self with written := self.written ++ [funcRequest] }
      if writeResult ≠ k.PCAN_ERROR_OK then
        Outcome.returned { self := self, status := 1 }
      else
        Outcome.returned { self := self, status := status }

/-- What `receiveMessage` leaves behind: the interface and its out-parameters
(`*messageID` and `*timeStamp` are never written). -/
structure ReceiveResult where
  self : CanPeakInterface
  data : Buffer
  dataSize : Nat
  status : Int

/-- Model of `CanPeakInterface::receiveMessage` (lines 128-147).  `data`,
`dataSize` and `status` are the out-parameters as they are on entry. -/
def receiveMessage (self : CanPeakInterface) (messageID : Nat) (_messageIDMask : Nat)
    (data : Buffer) (dataSize : Nat) (_status : Int) : Outcome ReceiveResult :=
  let (messages, entry) := index self.receivedMessages_ messageID
  match entry with
  | some msg =>
    let status := 0
    let messages := assign messages messageID none
    match memcpyOut data msg.data msg.len with
    | none => Outcome.undefinedBehaviour
    | some data =>
      Outcome.returned
        { self := { self with receivedMessages_ := messages }
          data := data, dataSize := msg.len, status := status }
  | none =>
    Outcome.returned
      { self := { self with receivedMessages_ := messages }
        data := data, dataSize := dataSize, status := 1 }

/-- Model of `openStreamSession` (lines 149-152); the pair holds the
out-parameters `*sessionHandle` and `*status`. -/
def openStreamSession (self : CanPeakInterface) (sessionHandle : Nat) (_messageID : Nat)
    (_messageIDMask : Nat) (_maxMessages : Nat) (status : Int) :
    Outcome (CanPeakInterface × Nat × Int) :=
  Outcome.thrown "not implemented" (self, sessionHandle, status)

/-- Model of `closeStreamSession` (lines 154-157). -/
def closeStreamSession (self : CanPeakInterface) (_sessionHandle : Nat) :
    Outcome CanPeakInterface :=
  Outcome.thrown "not implemented" self

/-- Model of `readStreamSession` (lines 159-162); `σ` is the caller's
`tCANStreamMessage` array, and the triple holds `messages`, `*messagesRead`
and `*status`. -/
def readStreamSession {σ : Type} (self : CanPeakInterface) (_sessionHandle : Nat)
    (messages : σ) (_messagesToRead : Nat) (messagesRead : Nat) (status : Int) :
    Outcome (CanPeakInterface × σ × Nat × Int) :=
  Outcome.thrown "not implemented" (self, messages, messagesRead, status)

/-- The out-parameters of `getCANStatus`; `φ` stands for `float`. -/
structure CANStatus (φ : Type) where
  percentBusUtilization : φ
  busOffCount : Nat
  txFullCount : Nat
  receiveErrorCount : Nat
  transmitErrorCount : Nat
  status : Int

/-- Model of `getCANStatus` (lines 164-167). -/
def getCANStatus {φ : Type} (self : CanPeakInterface) (out : CANStatus φ) :
    Outcome (CanPeakInterface × CANStatus φ) :=
  Outcome.thrown "not implemented" (self, out)

/-- Run `receiveMessage` `n` times in a row for one id, feeding each call the
out-parameters the previous one left; the list holds the `*status` each call
set, or `none` for a call that did not return normally. -/
def pollStatuses : Nat → CanPeakInterface → Nat → Nat → Buffer → Nat → Int →
    List (Option Int)
  | 0, _, _, _, _, _, _ => []
  | n + 1, self, messageID, mask, data, dataSize, status =>
    match receiveMessage self messageID mask data dataSize status with
    | Outcome.returned r =>
      some r.status :: pollStatuses n r.self messageID mask r.data r.dataSize r.status
    | _ => [none]

/-- Apply a function to what a call leaves behind. -/
def Outcome.map {α β : Type} (f : α → β) : Outcome α → Outcome β
  | Outcome.returned a => Outcome.returned (f a)
  | Outcome.thrown what a => Outcome.thrown what (f a)
  | Outcome.undefinedBehaviour => Outcome.undefinedBehaviour

/-- What the caller of `receiveMessage` sees: the payload buffer, `*dataSize`
and `*status`. -/
def ReceiveResult.outputs (r : ReceiveResult) : Buffer × Nat × Int :=
  (r.data, r.dataSize, r.status)

/-! ## Concrete inputs -/

/-- A standard data frame with id 5 and three payload bytes. -/
def frameShort : TPCANMsg :=
  { ID := 5, MSGTYPE := 0, LEN := 3, DATA := ![17, 34, 51, 0, 0, 0, 0, 0] }

/-- A second standard data frame with id 5, eight payload bytes. -/
def frameFull : TPCANMsg :=
  { ID := 5, MSGTYPE := 0, LEN := 8, DATA := ![1, 2, 3, 4, 5, 6, 7, 8] }

/-- A standard data frame with id 5 whose length field says 20. -/
def frameLong : TPCANMsg :=
  { ID := 5, MSGTYPE := 0, LEN := 20, DATA := ![1, 2, 3, 4, 5, 6, 7, 8] }

/-- A freshly constructed interface: empty message box, nothing written. -/
def freshInterface : CanPeakInterface :=
  { receivedMessages_ := emptyMessages, written := [] }

/-! ## Basic facts about the message map -/

theorem deposit_same (m : MessageMap) (F : TPCANMsg) :
    deposit m F F.ID = some (some { arbID := F.ID, len := F.LEN, data := F.DATA }) := by
  simp only [deposit, assign, Function.update_same]
  rfl

theorem deposit_other (m : MessageMap) (F : TPCANMsg) (j : Nat) (hj : j ≠ F.ID) :
    deposit m F j = m j := by
  unfold deposit index assign
  cases h : m F.ID <;> simp [Function.update_noteq hj]

theorem memcpyOut_fits (data : Buffer) (src : Bytes8) (n : Nat) (hn : n ≤ 8) :
    ∃ d, memcpyOut data src n = some d ∧
      (∀ i : Fin 8, i.val < n → d i.val = src i) ∧ (∀ j, n ≤ j → d j = data j) := by
  refine ⟨_, dif_pos hn, ?_, ?_⟩
  · intro i hi
    simp [hi]
  · intro j hj
    simp [Nat.not_lt.mpr hj]

theorem memcpyOut_overrun (data : Buffer) (src : Bytes8) (n : Nat) (hn : 8 < n) :
    memcpyOut data src n = none :=
  dif_neg (Nat.not_le.mpr hn)

/-- A pending frame of length at most 8 is handed out and its slot nulled. -/
theorem receiveMessage_pending (self : CanPeakInterface) (id mask : Nat) (data : Buffer)
    (dataSize : Nat) (status : Int) (msg : Message)
    (hm : self.receivedMessages_ id = some (some msg)) (hl : msg.len ≤ 8) :
    ∃ d, memcpyOut data msg.data msg.len = some d ∧
      receiveMessage self id mask data dataSize status =
        Outcome.returned
          { self := { self with
              receivedMessages_ := Function.update self.receivedMessages_ id (some none) }
            data := d, dataSize := msg.len, status := 0 } := by
  obtain ⟨d, hd, -, -⟩ := memcpyOut_fits data msg.data msg.len hl
  refine ⟨d, hd, ?_⟩
  simp [receiveMessage, index, hm, hd, assign]

/-- A pending frame longer than 8 makes the copy run past the frame buffer. -/
theorem receiveMessage_overrun (self : CanPeakInterface) (id mask : Nat) (data : Buffer)
    (dataSize : Nat) (status : Int) (msg : Message)
    (hm : self.receivedMessages_ id = some (some msg)) (hl : 8 < msg.len) :
    receiveMessage self id mask data dataSize status = Outcome.undefinedBehaviour := by
  simp [receiveMessage, index, hm, memcpyOut_overrun data msg.data msg.len hl]

/-- With no pending frame the call only sets `*status = 1`; the slot for the
id exists and is null afterwards. -/
theorem receiveMessage_empty (self : CanPeakInterface) (id mask : Nat) (data : Buffer)
    (dataSize : Nat) (status : Int)
    (hm : self.receivedMessages_ id = none ∨ self.receivedMessages_ id = some none) :
    receiveMessage self id mask data dataSize status =
      Outcome.returned
        { self := { self with
            receivedMessages_ := Function.update self.receivedMessages_ id (some none) }
          data := data, dataSize := dataSize, status := 1 } := by
  rcases hm with hm | hm
  · simp [receiveMessage, index, hm]
  · have : Function.update self.receivedMessages_ id (some none) = self.receivedMessages_ := by
      rw [← hm]; exact Function.update_eq_self _ _
    simp [receiveMessage, index, hm, this]

/-- After an empty poll the interface is the one with a null slot for the id,
so polling it again changes nothing. -/
theorem receiveMessage_null (self : CanPeakInterface) (id mask : Nat) (data : Buffer)
    (dataSize : Nat) (status : Int) (hm : self.receivedMessages_ id = some none) :
    receiveMessage self id mask data dataSize status =
      Outcome.returned { self := self, data := data, dataSize := dataSize, status := 1 } := by
  have h : Function.update self.receivedMessages_ id (some none) = self.receivedMessages_ := by
    rw [← hm]; exact Function.update_eq_self _ _
  rw [receiveMessage_empty self id mask data dataSize status (Or.inr hm), h]

theorem pollStatuses_empty (n : Nat) (self : CanPeakInterface) (id mask : Nat)
    (data : Buffer) (dataSize : Nat) (status : Int)
    (hm : self.receivedMessages_ id = none ∨ self.receivedMessages_ id = some none) :
    pollStatuses n self id mask data dataSize status = List.replicate n (some 1) := by
  induction n generalizing self status with
  | zero => rfl
  | succ n ih =>
    simp only [pollStatuses, receiveMessage_empty self id mask data dataSize status hm,
      List.replicate_succ]
    rw [ih]
    exact Or.inr (Function.update_same _ _ _)

/-- Whenever `receiveMessage` returns, the map it leaves is the old one with a
null slot for the id asked for. -/
theorem receiveMessage_map (self : CanPeakInterface) (id mask : Nat) (data : Buffer)
    (dataSize : Nat) (status : Int) (r : ReceiveResult)
    (h : receiveMessage self id mask data dataSize status = Outcome.returned r) :
    r.self.receivedMessages_ = Function.update self.receivedMessages_ id (some none) ∧
      r.self.written = self.written := by
  rcases hm : self.receivedMessages_ id with _ | _ | msg
  · rw [receiveMessage_empty self id mask data dataSize status (Or.inl hm)] at h
    cases h
    exact ⟨rfl, rfl⟩
  · rw [receiveMessage_empty self id mask data dataSize status (Or.inr hm)] at h
    cases h
    exact ⟨rfl, rfl⟩
  · by_cases hl : msg.len ≤ 8
    · obtain ⟨d, -, hr⟩ := receiveMessage_pending self id mask data dataSize status msg hm hl
      rw [hr] at h
      cases h
      exact ⟨rfl, rfl⟩
    · rw [receiveMessage_overrun self id mask data dataSize status msg hm
        (Nat.lt_of_not_le hl)] at h
      cases h

/-- What `receiveMessage` hands to its caller depends on the map only through
the slot of the id asked for. -/
theorem receiveMessage_outputs_congr (self other : CanPeakInterface) (id mask : Nat)
    (data : Buffer) (dataSize : Nat) (status : Int)
    (h : self.receivedMessages_ id = other.receivedMessages_ id) :
    (receiveMessage self id mask data dataSize status).map ReceiveResult.outputs =
      (receiveMessage other id mask data dataSize status).map ReceiveResult.outputs := by
  rcases hm : other.receivedMessages_ id with _ | _ | msg
  · rw [receiveMessage_empty self id mask data dataSize status (Or.inl (h.trans hm)),
      receiveMessage_empty other id mask data dataSize status (Or.inl hm)]
    rfl
  · rw [receiveMessage_empty self id mask data dataSize status (Or.inr (h.trans hm)),
      receiveMessage_empty other id mask data dataSize status (Or.inr hm)]
    rfl
  · by_cases hl : msg.len ≤ 8
    · obtain ⟨d, hd, hr⟩ :=
        receiveMessage_pending self id mask data dataSize status msg (h.trans hm) hl
      obtain ⟨d2, hd2, hr2⟩ :=
        receiveMessage_pending other id mask data dataSize status msg hm hl
      have hdd : d2 = d := Option.some.inj (hd2.symm.trans hd)
      subst hdd
      rw [hr, hr2]
      rfl
    · rw [receiveMessage_overrun self id mask data dataSize status msg (h.trans hm)
          (Nat.lt_of_not_le hl),
        receiveMessage_overrun other id mask data dataSize status msg hm
          (Nat.lt_of_not_le hl)]

theorem memcpyIn_fits (dst : Bytes8) (src : Buffer) (n : Nat) (hn : n ≤ 8) :
    memcpyIn dst src n = some (fun i => if i.val < n then src i.val else dst i) :=
  if_pos hn

theorem memcpyIn_overrun (dst : Bytes8) (src : Buffer) (n : Nat) (hn : 8 < n) :
    memcpyIn dst src n = none :=
  if_neg (Nat.not_le.mpr hn)

/-- With `periodMs == 0` nothing happens at all, whatever `dataSize` is. -/
theorem sendMessage_zero_period (k : PcanConsts) (self : CanPeakInterface) (arbID : Nat)
    (data : Buffer) (dataSize : Nat) (status : Int) (writeResult : Nat) :
    sendMessage k self arbID data dataSize 0 status writeResult =
      Outcome.returned { self := self, status := status } := by
  simp [sendMessage]

/-- With a non-zero period and at most 8 bytes to send, one frame goes to the
adapter: id `arbID`, standard type, length field 8, the `dataSize` bytes of
`data` followed by zeros.  The message box is not touched. -/
theorem sendMessage_fitting (k : PcanConsts) (self : CanPeakInterface) (arbID : Nat)
    (data : Buffer) (dataSize : Nat) (periodMs : Int) (status : Int) (writeResult : Nat)
    (hp : periodMs ≠ 0) (hd : dataSize ≤ 8) :
    sendMessage k self arbID data dataSize periodMs status writeResult =
      Outcome.returned
        { self :=
            { receivedMessages_ := self.receivedMessages_
              written := self.written ++
                [{ ID := arbID, MSGTYPE := k.PCAN_MESSAGE_STANDARD, LEN := 8
                   DATA := fun i => if i.val < dataSize then data i.val else 0 }] }
          status := if writeResult = k.PCAN_ERROR_OK then status else 1 } := by
  unfold sendMessage
  rw [if_neg hp]
  simp only [memcpyIn_fits _ data dataSize hd]
  by_cases hw : writeResult = k.PCAN_ERROR_OK
  · simp [hw, zeroBytes]
  · simp [hw, zeroBytes]

/-- With a non-zero period and more than 8 bytes asked for, the copy runs past
the 8-byte `DATA` array of the local frame. -/
theorem sendMessage_overrun (k : PcanConsts) (self : CanPeakInterface) (arbID : Nat)
    (data : Buffer) (dataSize : Nat) (periodMs : Int) (status : Int) (writeResult : Nat)
    (hp : periodMs ≠ 0) (hd : 8 < dataSize) :
    sendMessage k self arbID data dataSize periodMs status writeResult =
      Outcome.undefinedBehaviour := by
  unfold sendMessage
  rw [if_neg hp]
  simp only [memcpyIn_overrun _ data dataSize hd]

/-- A successful read of a standard data frame stores the frame's id, its
length field as it is, and its eight data bytes. -/
theorem readerBody_standard (k : PcanConsts) (hk : k.PCAN_ERROR_OK ≠ k.PCAN_ERROR_QRCVEMPTY)
    (messages : MessageMap) (msgReceived : TPCANMsg)
    (ht : msgReceived.MSGTYPE = k.PCAN_MESSAGE_STANDARD) :
    readerBody k messages k.PCAN_ERROR_OK msgReceived msgReceived.ID =
      some (some { arbID := msgReceived.ID, len := msgReceived.LEN,
                   data := msgReceived.DATA }) := by
  unfold readerBody
  rw [if_neg hk, if_pos rfl, if_pos ht]
  exact deposit_same messages msgReceived

/-- Anything but a successful read of a standard data frame leaves the map. -/
theorem readerBody_other (k : PcanConsts) (messages : MessageMap) (result : Nat)
    (msgReceived : TPCANMsg)
    (h : result = k.PCAN_ERROR_QRCVEMPTY ∨ result ≠ k.PCAN_ERROR_OK ∨
      msgReceived.MSGTYPE ≠ k.PCAN_MESSAGE_STANDARD) :
    readerBody k messages result msgReceived = messages := by
  unfold readerBody
  rcases h with h | h | h
  · rw [if_pos h]
  · rw [if_neg h]; simp
  · rw [if_neg h]; simp

/-! ## The claims -/

/-- C1 (consume once).  For every interface state and every frame `F` whose
length is at most 8: after the reader deposits `F`, `receiveMessage` for its id
returns with `*status = 0`, `*dataSize = F.LEN` and the first `F.LEN` payload
bytes of `F` copied to `data` (the rest of `data` untouched); a second
`receiveMessage` for the id, with any arguments, returns with `*status = 1`,
writes nothing else and leaves the interface as it is. -/
theorem consume_once (self : CanPeakInterface) (F : TPCANMsg) (hF : F.LEN ≤ 8)
    (mask : Nat) (data : Buffer) (dataSize : Nat) (status : Int) :
    ∃ r, receiveMessage { self with receivedMessages_ := deposit self.receivedMessages_ F }
          F.ID mask data dataSize status = Outcome.returned r ∧
      r.status = 0 ∧ r.dataSize = F.LEN ∧
      (∀ i : Fin 8, i.val < F.LEN → r.data i.val = F.DATA i) ∧
      (∀ j, F.LEN ≤ j → r.data j = data j) ∧
      ∀ (mask2 : Nat) (data2 : Buffer) (dataSize2 : Nat) (status2 : Int),
        receiveMessage r.self F.ID mask2 data2 dataSize2 status2 =
          Outcome.returned
            { self := r.self, data := data2, dataSize := dataSize2, status := 1 } := by
  obtain ⟨d, hd, hcopy, hrest⟩ := memcpyOut_fits data F.DATA F.LEN hF
  obtain ⟨d2, hd2, hrecv⟩ := receiveMessage_pending
    { self with receivedMessages_ := deposit self.receivedMessages_ F }
    F.ID mask data dataSize status { arbID := F.ID, len := F.LEN, data := F.DATA }
    (deposit_same _ F) hF
  have hdd : d2 = d := Option.some.inj (hd2.symm.trans hd)
  subst hdd
  refine ⟨_, hrecv, rfl, rfl, hcopy, hrest, ?_⟩
  intro mask2 data2 dataSize2 status2
  exact receiveMessage_null _ F.ID mask2 data2 dataSize2 status2 (Function.update_same _ _ _)

/-- Witness of C1 at the fresh interface and the three-byte frame. -/
theorem consume_once_witness :
    frameShort.LEN ≤ 8 ∧
    ∃ r, receiveMessage
          { freshInterface with
            receivedMessages_ := deposit freshInterface.receivedMessages_ frameShort }
          frameShort.ID 0 (fun _ => 255) 0 7 = Outcome.returned r ∧
      r.status = 0 ∧ r.dataSize = frameShort.LEN ∧
      (∀ i : Fin 8, i.val < frameShort.LEN → r.data i.val = frameShort.DATA i) ∧
      (∀ j, frameShort.LEN ≤ j → r.data j = (fun _ => 255 : Buffer) j) ∧
      ∀ (mask2 : Nat) (data2 : Buffer) (dataSize2 : Nat) (status2 : Int),
        receiveMessage r.self frameShort.ID mask2 data2 dataSize2 status2 =
          Outcome.returned
            { self := r.self, data := data2, dataSize := dataSize2, status := 1 } :=
  ⟨by decide, consume_once freshInterface frameShort (by decide) 0 (fun _ => 255) 0 7⟩

/-- C2 (overwrite, last write wins).  For every interface state, every frame
`F1` and every frame `F2` for the same id whose length is at most 8 (the
length range of a frame): after the reader deposits `F1` and then `F2`, the
slot of the id holds exactly `F2`; `receiveMessage` for the id returns with
`*status = 0`, `*dataSize = F2.LEN` and the first `F2.LEN` payload bytes of
`F2` copied to `data`; and every further `receiveMessage` for the id returns
with `*status = 1`, writes nothing else and leaves the interface as it is, so
`F1` is never handed out. -/
theorem last_write_wins (self : CanPeakInterface) (F1 F2 : TPCANMsg)
    (hid : F2.ID = F1.ID) (hF : F2.LEN ≤ 8) (mask : Nat) (data : Buffer) (dataSize : Nat)
    (status : Int) :
    deposit (deposit self.receivedMessages_ F1) F2 F1.ID =
        some (some { arbID := F2.ID, len := F2.LEN, data := F2.DATA }) ∧
    ∃ r, receiveMessage
          { self with receivedMessages_ := deposit (deposit self.receivedMessages_ F1) F2 }
          F1.ID mask data dataSize status = Outcome.returned r ∧
      r.status = 0 ∧ r.dataSize = F2.LEN ∧
      (∀ i : Fin 8, i.val < F2.LEN → r.data i.val = F2.DATA i) ∧
      (∀ j, F2.LEN ≤ j → r.data j = data j) ∧
      ∀ (mask2 : Nat) (data2 : Buffer) (dataSize2 : Nat) (status2 : Int),
        receiveMessage r.self F1.ID mask2 data2 dataSize2 status2 =
          Outcome.returned
            { self := r.self, data := data2, dataSize := dataSize2, status := 1 } := by
  have hslot : deposit (deposit self.receivedMessages_ F1) F2 F1.ID =
      some (some { arbID := F2.ID, len := F2.LEN, data := F2.DATA }) := by
    rw [← hid]; exact deposit_same _ F2
  obtain ⟨d, hd, hcopy, hrest⟩ := memcpyOut_fits data F2.DATA F2.LEN hF
  obtain ⟨d2, hd2, hrecv⟩ := receiveMessage_pending
    { self with receivedMessages_ := deposit (deposit self.receivedMessages_ F1) F2 }
    F1.ID mask data dataSize status { arbID := F2.ID, len := F2.LEN, data := F2.DATA }
    hslot hF
  have hdd : d2 = d := Option.some.inj (hd2.symm.trans hd)
  subst hdd
  refine ⟨hslot, _, hrecv, rfl, rfl, hcopy, hrest, ?_⟩
  intro mask2 data2 dataSize2 status2
  exact receiveMessage_null _ F1.ID mask2 data2 dataSize2 status2 (Function.update_same _ _ _)

/-- Witness of C2: on a fresh interface the three-byte frame is deposited for
id 5 and then the eight-byte frame for the same id. -/
theorem last_write_wins_witness :
    (frameFull.ID = frameShort.ID ∧ frameFull.LEN ≤ 8) ∧
    deposit (deposit freshInterface.receivedMessages_ frameShort) frameFull frameShort.ID =
        some (some { arbID := frameFull.ID, len := frameFull.LEN, data := frameFull.DATA }) ∧
    ∃ r, receiveMessage
          { freshInterface with
            receivedMessages_ :=
              deposit (deposit freshInterface.receivedMessages_ frameShort) frameFull }
          frameShort.ID 0 (fun _ => 255) 0 7 = Outcome.returned r ∧
      r.status = 0 ∧ r.dataSize = frameFull.LEN ∧
      (∀ i : Fin 8, i.val < frameFull.LEN → r.data i.val = frameFull.DATA i) ∧
      (∀ j, frameFull.LEN ≤ j → r.data j = (fun _ => 255 : Buffer) j) ∧
      ∀ (mask2 : Nat) (data2 : Buffer) (dataSize2 : Nat) (status2 : Int),
        receiveMessage r.self frameShort.ID mask2 data2 dataSize2 status2 =
          Outcome.returned
            { self := r.self, data := data2, dataSize := dataSize2, status := 1 } :=
  ⟨⟨rfl, by decide⟩,
   last_write_wins freshInterface frameShort frameFull rfl (by decide) 0 (fun _ => 255) 0 7⟩

/-- C3 (empty poll).  On a freshly constructed interface, for every id and
every number `n` of consecutive `receiveMessage` calls for it (whatever the
arguments), each of the `n` calls returns normally with `*status = 1`. -/
theorem empty_poll (n : Nat) (written : List TPCANMsg) (id mask : Nat) (data : Buffer)
    (dataSize : Nat) (status : Int) :
    pollStatuses n { receivedMessages_ := emptyMessages, written := written }
      id mask data dataSize status = List.replicate n (some 1) :=
  pollStatuses_empty n _ id mask data dataSize status (Or.inl rfl)

/-- C4, at the failing input.  `sendMessage` with `dataSize = 20` and a
non-zero period asks `memcpy` to put 20 bytes into the 8-byte `DATA` array of
the outgoing frame: the copy is not cut down to `min 20 8 = 8` bytes, it runs
12 bytes past the array, and the call has no defined outcome. -/
theorem send_not_clamped_at_20 :
    memcpyIn zeroBytes (fun _ => 170) 20 = none ∧
    sendMessage pcanBasic freshInterface 1 (fun _ => 170) 20 1 0 pcanBasic.PCAN_ERROR_OK =
      Outcome.undefinedBehaviour :=
  ⟨memcpyIn_overrun _ _ 20 (by decide),
   sendMessage_overrun pcanBasic freshInterface 1 _ 20 1 0 _ (by decide) (by decide)⟩

/-- C5 (zero-period send is a no-op).  For every `arbID`, `data`, `dataSize`,
entry `*status` and interface state: with `periodMs == 0` the call returns
with the interface unchanged (no frame handed to the adapter, message box as
it was) and `*status` at its entry value.  With any `periodMs != 0` the call
never throws; whenever it returns, exactly one frame has been handed to the
adapter and the message box is as it was; and for `dataSize <= 8` it does
return, the one frame written being id `arbID`, standard type, length field
8, the `dataSize` bytes of `data` followed by zeros. -/
theorem zero_period_noop (k : PcanConsts) (self : CanPeakInterface) (arbID : Nat)
    (data : Buffer) (dataSize : Nat) (status : Int) (writeResult : Nat) :
    sendMessage k self arbID data dataSize 0 status writeResult =
        Outcome.returned { self := self, status := status } ∧
    ∀ periodMs : Int, periodMs ≠ 0 →
      (sendMessage k self arbID data dataSize periodMs status writeResult).throws = false ∧
      (∀ r, sendMessage k self arbID data dataSize periodMs status writeResult =
            Outcome.returned r →
          (∃ frame, r.self.written = self.written ++ [frame]) ∧
          r.self.receivedMessages_ = self.receivedMessages_) ∧
      (dataSize ≤ 8 →
        ∃ r, sendMessage k self arbID data dataSize periodMs status writeResult =
            Outcome.returned r ∧
          r.self.written = self.written ++
            [{ ID := arbID, MSGTYPE := k.PCAN_MESSAGE_STANDARD, LEN := 8
               DATA := fun i => if i.val < dataSize then data i.val else 0 }] ∧
          r.self.receivedMessages_ = self.receivedMessages_) := by
  refine ⟨sendMessage_zero_period k self arbID data dataSize status writeResult, ?_⟩
  intro periodMs hp
  by_cases hd : dataSize ≤ 8
  · have hs := sendMessage_fitting k self arbID data dataSize periodMs status writeResult hp hd
    refine ⟨?_, ?_, ?_⟩
    · rw [hs]; rfl
    · intro r hr
      rw [hs] at hr
      cases hr
      exact ⟨⟨_, rfl⟩, rfl⟩
    · intro _
      exact ⟨_, hs, rfl, rfl⟩
  · have hs := sendMessage_overrun k self arbID data dataSize periodMs status writeResult hp
      (Nat.lt_of_not_le hd)
    refine ⟨?_, ?_, ?_⟩
    · rw [hs]; rfl
    · intro r hr
      rw [hs] at hr
      cases hr
    · intro h8
      exact absurd h8 hd

/-- Witness of C5: four bytes sent on a fresh interface, once with period 0
and once with period 10. -/
theorem zero_period_noop_witness :
    ((10 : Int) ≠ 0 ∧ 4 ≤ 8) ∧
    sendMessage pcanBasic freshInterface 1 (fun i => i + 1) 4 0 0 0 =
        Outcome.returned { self := freshInterface, status := 0 } ∧
    ∃ r, sendMessage pcanBasic freshInterface 1 (fun i => i + 1) 4 10 0 0 =
        Outcome.returned r ∧
      r.self.written = freshInterface.written ++
        [{ ID := 1, MSGTYPE := pcanBasic.PCAN_MESSAGE_STANDARD, LEN := 8
           DATA := fun i => if i.val < 4 then (fun i => i + 1 : Buffer) i.val else 0 }] ∧
      r.self.receivedMessages_ = freshInterface.receivedMessages_ :=
  ⟨⟨by decide, by decide⟩,
   (zero_period_noop pcanBasic freshInterface 1 (fun i => i + 1) 4 0 0).1,
   ((zero_period_noop pcanBasic freshInterface 1 (fun i => i + 1) 4 0 0).2 10
      (by decide)).2.2 (by decide)⟩

/-- C6 (send status).  For every `sendMessage` call with `periodMs ≠ 0` and
`dataSize ≤ 8` the call returns (it neither throws nor misbehaves) after
handing exactly one frame to the adapter (id `arbID`, standard type, length
field 8, the `dataSize` bytes of `data` followed by zeros) and without
touching the message box; `writeResult` being what that `CAN_Write` returned,
`*status` is 1 when it is something other than `PCAN_ERROR_OK`, and is
exactly its entry value when it is `PCAN_ERROR_OK`. -/
theorem send_status (k : PcanConsts) (self : CanPeakInterface) (arbID : Nat)
    (data : Buffer) (dataSize : Nat) (periodMs : Int) (status : Int) (writeResult : Nat)
    (hp : periodMs ≠ 0) (hd : dataSize ≤ 8) :
    ∃ r, sendMessage k self arbID data dataSize periodMs status writeResult =
          Outcome.returned r ∧
      r.self.written = self.written ++
        [{ ID := arbID, MSGTYPE := k.PCAN_MESSAGE_STANDARD, LEN := 8
           DATA := fun i => if i.val < dataSize then data i.val else 0 }] ∧
      r.self.receivedMessages_ = self.receivedMessages_ ∧
      (writeResult ≠ k.PCAN_ERROR_OK → r.status = 1) ∧
      (writeResult = k.PCAN_ERROR_OK → r.status = status) := by
  refine ⟨_, sendMessage_fitting k self arbID data dataSize periodMs status writeResult hp hd,
    rfl, rfl, ?_, ?_⟩
  · intro hw
    exact if_neg hw
  · intro hw
    exact if_pos hw

/-- Witness of C6: four bytes, period 10, entry status 0, and a `CAN_Write`
that returns the non-OK result 32. -/
theorem send_status_witness :
    ((10 : Int) ≠ 0 ∧ 4 ≤ 8) ∧
    ∃ r, sendMessage pcanBasic freshInterface 1 (fun i => i + 1) 4 10 0 32 =
          Outcome.returned r ∧
      r.self.written = freshInterface.written ++
        [{ ID := 1, MSGTYPE := pcanBasic.PCAN_MESSAGE_STANDARD, LEN := 8
           DATA := fun i => if i.val < 4 then (fun i => i + 1 : Buffer) i.val else 0 }] ∧
      r.self.receivedMessages_ = freshInterface.receivedMessages_ ∧
      ((32 : Nat) ≠ pcanBasic.PCAN_ERROR_OK → r.status = 1) ∧
      ((32 : Nat) = pcanBasic.PCAN_ERROR_OK → r.status = 0) :=
  ⟨⟨by decide, by decide⟩,
   send_status pcanBasic freshInterface 1 (fun i => i + 1) 4 10 0 32 (by decide) (by decide)⟩

/-- C7 (stubs).  For all arguments and every interface state, each of
`openStreamSession`, `closeStreamSession`, `readStreamSession` and
`getCANStatus` ends by throwing "not implemented", with the interface (message
box included) and every out-parameter exactly as on entry. -/
theorem stubs_not_implemented {σ φ : Type} (self : CanPeakInterface)
    (sessionHandle messageID messageIDMask maxMessages : Nat) (status : Int)
    (messages : σ) (messagesToRead messagesRead : Nat) (out : CANStatus φ) :
    openStreamSession self sessionHandle messageID messageIDMask maxMessages status =
        Outcome.thrown "not implemented" (self, sessionHandle, status) ∧
    closeStreamSession self sessionHandle = Outcome.thrown "not implemented" self ∧
    readStreamSession self sessionHandle messages messagesToRead messagesRead status =
        Outcome.thrown "not implemented" (self, messages, messagesRead, status) ∧
    getCANStatus self out = Outcome.thrown "not implemented" (self, out) :=
  ⟨rfl, rfl, rfl, rfl⟩

/-- C8, at the failing input.  The reader reads, with `PCAN_ERROR_OK`, the
standard data frame `frameLong` whose length field is 20.  The message stored
for id 5 has `len = 20`, not `min 20 8 = 8`, and the next `receiveMessage(5)`
asks for 20 bytes of the 8-byte frame buffer. -/
theorem reader_length_not_clamped :
    (∃ msg, readerBody pcanBasic emptyMessages pcanBasic.PCAN_ERROR_OK frameLong 5 =
        some (some msg) ∧ msg.len = 20 ∧ msg.len ≠ min frameLong.LEN 8 ∧ ¬ msg.len ≤ 8) ∧
    receiveMessage
      { freshInterface with
        receivedMessages_ :=
          readerBody pcanBasic emptyMessages pcanBasic.PCAN_ERROR_OK frameLong }
      5 0 (fun _ => 0) 0 0 = Outcome.undefinedBehaviour := by
  have h := readerBody_standard pcanBasic (by decide) emptyMessages frameLong rfl
  refine ⟨⟨_, h, rfl, by decide, by decide⟩, ?_⟩
  exact receiveMessage_overrun _ 5 0 _ 0 0 _ h (by decide)

/-- C9 (reader, non-data outcomes).  Take a loop iteration that runs (the flag
is set) and in which `CAN_Read` returns queue-empty, or any result other than
OK, or a frame whose type is not standard data.  The message map is unchanged
by the body; the loop goes on to its next test with the same map; and at that
test the thread stops, map still unchanged, exactly when the flag is clear,
and otherwise makes the next read. -/
theorem reader_non_data (k : PcanConsts) (messages : MessageMap) (result : Nat)
    (msgReceived : TPCANMsg)
    (h : result = k.PCAN_ERROR_QRCVEMPTY ∨ result ≠ k.PCAN_ERROR_OK ∨
      msgReceived.MSGTYPE ≠ k.PCAN_MESSAGE_STANDARD) :
    readerBody k messages result msgReceived = messages ∧
    (∀ (rest : List Turn) (reads : Nat),
      readerLoop k ({ running := true, result := result, msgReceived := msgReceived } :: rest)
          messages reads = readerLoop k rest messages (reads + 1)) ∧
    (∀ (next : Turn) (rest : List Turn) (reads : Nat),
      readerLoop k
          ({ running := true, result := result, msgReceived := msgReceived } :: next :: rest)
          messages reads =
        if next.running then
          readerLoop k rest (readerBody k messages next.result next.msgReceived) (reads + 2)
        else (ReaderState.Stopped, messages, reads + 1)) := by
  have hb := readerBody_other k messages result msgReceived h
  refine ⟨hb, ?_, ?_⟩
  · intro rest reads
    simp [readerLoop, hb]
  · intro next rest reads
    simp [readerLoop, hb]

/-- Witness of C9: a read that returns OK with a status frame (type 128). -/
theorem reader_non_data_witness :
    ((0 : Nat) = pcanBasic.PCAN_ERROR_QRCVEMPTY ∨ (0 : Nat) ≠ pcanBasic.PCAN_ERROR_OK ∨
      ({ frameShort with MSGTYPE := 128 } : TPCANMsg).MSGTYPE ≠
        pcanBasic.PCAN_MESSAGE_STANDARD) ∧
    readerBody pcanBasic (deposit emptyMessages frameFull) 0
        { frameShort with MSGTYPE := 128 } = deposit emptyMessages frameFull :=
  ⟨Or.inr (Or.inr (by decide)),
   (reader_non_data pcanBasic (deposit emptyMessages frameFull) 0
      { frameShort with MSGTYPE := 128 } (Or.inr (Or.inr (by decide)))).1⟩

/-- C10 (per-id isolation).  For distinct ids `i ≠ j` and every interface
state: what `receiveMessage(j)` hands back (payload buffer, `*dataSize`,
`*status`, or the absence of a defined outcome) is the same after the reader
deposited a frame for `i` as without that deposit, and the same after any
`receiveMessage(i)` that returned (whether it found a frame or created an
empty slot) as without that call. -/
theorem per_id_isolation (self : CanPeakInterface) (i j : Nat) (hij : i ≠ j)
    (F : TPCANMsg) (hF : F.ID = i) (mask : Nat) (data : Buffer) (dataSize : Nat)
    (status : Int) :
    (receiveMessage { self with receivedMessages_ := deposit self.receivedMessages_ F }
          j mask data dataSize status).map ReceiveResult.outputs =
        (receiveMessage self j mask data dataSize status).map ReceiveResult.outputs ∧
    ∀ (maskI : Nat) (dataI : Buffer) (dataSizeI : Nat) (statusI : Int) (r : ReceiveResult),
      receiveMessage self i maskI dataI dataSizeI statusI = Outcome.returned r →
      (receiveMessage r.self j mask data dataSize status).map ReceiveResult.outputs =
        (receiveMessage self j mask data dataSize status).map ReceiveResult.outputs := by
  constructor
  · apply receiveMessage_outputs_congr
    exact deposit_other _ F j (by rw [hF]; exact fun h => hij h.symm)
  · intro maskI dataI dataSizeI statusI r hr
    apply receiveMessage_outputs_congr
    rw [(receiveMessage_map self i maskI dataI dataSizeI statusI r hr).1]
    exact Function.update_noteq (fun h => hij h.symm) _ _

/-- Witness of C10: ids 5 and 6, a frame pending for 6, a deposit for 5. -/
theorem per_id_isolation_witness :
    ((5 : Nat) ≠ 6 ∧ frameShort.ID = 5) ∧
    (receiveMessage
          { receivedMessages_ :=
              deposit (deposit emptyMessages { frameFull with ID := 6 }) frameShort
            written := [] }
          6 0 (fun _ => 0) 0 0).map ReceiveResult.outputs =
      (receiveMessage
          { receivedMessages_ := deposit emptyMessages { frameFull with ID := 6 }
            written := [] }
          6 0 (fun _ => 0) 0 0).map ReceiveResult.outputs :=
  ⟨⟨by decide, rfl⟩,
   (per_id_isolation
      { receivedMessages_ := deposit emptyMessages { frameFull with ID := 6 }, written := [] }
      5 6 (by decide) frameShort rfl 0 (fun _ => 0) 0 0).1⟩

end CanTalonSrx
